import Mathlib

/-!
Shallow embedding of glimpse.py (u1i/glimpse), a CLI client that sends an
image plus prompt to the OpenRouter chat-completion endpoint and that lists
image-capable models using a 6-hour file cache.

Conventions of the embedding:
* Python floats are modelled as rationals (the program only reads, compares
  and formats decimal values; no float-specific behaviour is relied upon by
  the claims).
* The INI config file is modelled by the three relevant keys of its
  `openrouter` section; a missing section is the same as all keys missing,
  exactly as the `in` tests of `load_config` collapse the two cases.
  A present `temperature` key is modelled by `some (some q)` when the string
  parses as a float and `some none` when `float()` raises `ValueError`.
* Filesystem and network effects are passed in explicitly: `mainAnalyze`
  receives the existence bits that `main` checks and the base64 string that
  `encode_image` would produce; `fetch_models_data` receives the cache file
  state and the would-be network outcome.  `Except.error` is the embedding
  of `sys.exit(1)` after the corresponding diagnostic, and producing an
  `Except.ok` payload is the embedding of performing the network call.
-/

/-- Built-in default model of `load_config` (glimpse.py line 27). -/
def defaultModel : String := "google/gemini-2.5-flash"

/-- Built-in default temperature of `load_config` (glimpse.py line 28): 0.4. -/
def defaultTemperature : ℚ := 2 / 5

/-- The `openrouter` section of `~/.glimpse_cfg`.  `temperature` carries the
result of the `float()` parse attempt: `some none` models a present but
unparseable value. -/
structure ConfigFile where
  api_key : Option String
  model : Option String
  temperature : Option (Option ℚ)
deriving DecidableEq

/-- Embedding of `load_config` (glimpse.py lines 21-65): the api_key is
required (exit 1 when missing), model and temperature fall back to the
built-in defaults, an unparseable temperature also falls back to the
default (with a warning the embedding does not track). -/
def load_config (cfg : ConfigFile) : Except String (String × String × ℚ) :=
  match cfg.api_key with
  | none => Except.error "Error: Missing api_key in [openrouter] section of config file."
  | some api_key =>
    let model := match cfg.model with
      | some m => m
      | none => defaultModel
    let temperature := match cfg.temperature with
      | some (some t) => t
      | some none => defaultTemperature
      | none => defaultTemperature
    Except.ok (api_key, model, temperature)

/-- One part of the single message's content list. -/
inductive ContentPart where
  | text (value : String)
  | image_url (url : String)
deriving DecidableEq

/-- One chat message of the request body. -/
structure Message where
  role : String
  content : List ContentPart
deriving DecidableEq

/-- The outbound JSON body of the chat-completion request.  `temperature`
is an optional field: `none` means the key is absent from the body. -/
structure Payload where
  model : String
  messages : List Message
  temperature : Option ℚ
deriving DecidableEq

/-- Embedding of the payload construction of `analyze_image`
(glimpse.py lines 89-104): one user message with a text part followed by an
image part, and the temperature key added only when the argument is not
None. -/
def analyze_payload (prompt : String) (base64_image : String) (model : String)
    (temperature : Option ℚ) : Payload :=
  { model := model
    messages := [{ role := "user"
                   content := [ContentPart.text prompt,
                               ContentPart.image_url
                                 ("data:image/jpeg;base64," ++ base64_image)] }]
    temperature := temperature }

/-- Splits a character list at every occurrence of `c`; mirrors
`str.split` with a one-character separator (always at least one piece). -/
def splitOnChar (c : Char) : List Char → List (List Char)
  | [] => [[]]
  | x :: xs =>
    let rest := splitOnChar c xs
    if x = c then [] :: rest
    else match rest with
      | [] => [[x]]
      | piece :: pieces => (x :: piece) :: pieces

/-- Embedding of `pathlib.PurePath.suffix`: the final dot-led component of
the last path segment, empty when the last dot is the segment's first
character (hidden file) or its last character, or when there is no dot. -/
def pathSuffix (p : String) : String :=
  let name := (splitOnChar '/' p.data).reverse.headD []
  let pieces := splitOnChar '.' name
  match pieces with
  | [] => ""
  | [_] => ""
  | [[], _] => ""
  | _ =>
    match pieces.reverse.headD [] with
    | [] => ""
    | last => String.mk ('.' :: last)

/-- ASCII lowercasing of a string, as `str.lower` behaves on the
extensions the program compares. -/
def lowerString (s : String) : String :=
  String.mk (s.data.map Char.toLower)

/-- The extension allow-list of `main` (glimpse.py line 328). -/
def allowedSuffixes : List String := [".jpg", ".jpeg", ".png"]

/-- Command-line arguments relevant to analyze mode: `image_path` is the
optional positional, `model` and `temperature` are `None` when the flag is
absent. -/
structure Args where
  image_path : Option String
  prompt : String
  model : Option String
  temperature : Option ℚ
deriving DecidableEq

/-- The ambient state `main` consults in analyze mode: whether the config
file and the image exist on disk, the parsed config file, and the base64
encoding of the image bytes. -/
structure Env where
  configExists : Bool
  imageExists : Bool
  cfg : ConfigFile
  imageB64 : String
deriving DecidableEq

/-- Embedding of `model = args.model if args.model else config_model`
(glimpse.py line 336): Python truthiness, so both an absent flag and an
empty string fall back to the config model. -/
def resolveModel (cliModel : Option String) (configModel : String) : String :=
  match cliModel with
  | some m => if m = "" then configModel else m
  | none => configModel

/-- Embedding of `temperature = args.temperature if args.temperature is not
None else config_temperature` (glimpse.py line 339): an explicit
is-not-None test, so 0.0 does override. -/
def resolveTemperature (cliTemperature : Option ℚ) (configTemperature : ℚ) : ℚ :=
  match cliTemperature with
  | some t => t
  | none => configTemperature

/-- Embedding of the analyze branch of `main` (glimpse.py lines 305-342):
the precondition checks in source order, then config loading, precedence
resolution, and the payload that `analyze_image` posts.  An `Except.error`
is a diagnostic plus `sys.exit(1)` before any chat-completion request. -/
def mainAnalyze (args : Args) (env : Env) : Except String Payload :=
  match args.image_path with
  | none => Except.error "Error: Image path is required for analysis."
  | some image_path =>
    if env.configExists = false then
      Except.error "Error: Config file not found"
    else if env.imageExists = false then
      Except.error ("Error: Image file not found: " ++ image_path)
    else if lowerString (pathSuffix image_path) ∈ allowedSuffixes then
      match load_config env.cfg with
      | Except.error e => Except.error e
      | Except.ok (api_key, config_model, config_temperature) =>
        let _ := api_key
        let model := resolveModel args.model config_model
        let temperature := resolveTemperature args.temperature config_temperature
        Except.ok (analyze_payload args.prompt env.imageB64 model (some temperature))
    else
      Except.error "Error: Unsupported image format. Please use JPG or PNG."

/-- The advertised pricing object of a catalog entry; the two keys are
per-unit decimal prices, carried as strings by the API. -/
structure Pricing where
  prompt : Option String
  completion : Option String
deriving DecidableEq

/-- The `architecture` object of a catalog entry. -/
structure Architecture where
  input_modalities : Option (List String)
deriving DecidableEq

/-- One raw model descriptor of the catalog, with every field the display
code reads made explicitly optional (`model.get` with a default). -/
structure JsonModel where
  id : Option String
  name : Option String
  context_length : Option Nat
  architecture : Option Architecture
  pricing : Option Pricing
  description : Option String
deriving DecidableEq

/-- The catalog document: either a JSON object with a `data` array, or the
bare array itself (the fallback of glimpse.py lines 195-198). -/
inductive ModelsDoc where
  | withData (models : List JsonModel)
  | bare (models : List JsonModel)
deriving DecidableEq

/-- Embedding of `models_data['data'] if 'data' in models_data else
models_data` (glimpse.py lines 195-198). -/
def extractModels : ModelsDoc → List JsonModel
  | ModelsDoc.withData models => models
  | ModelsDoc.bare models => models

/-- Embedding of `model.get('architecture', {}).get('input_modalities', [])`
(glimpse.py lines 203-204). -/
def getModalities (m : JsonModel) : List String :=
  match m.architecture with
  | none => []
  | some a =>
    match a.input_modalities with
    | none => []
    | some modalities => modalities

/-- Embedding of the filtering loop of `list_models` (glimpse.py lines
201-206): start from an empty list and append every model whose input
modalities contain the string "image". -/
def filterImageModels (models : List JsonModel) : List JsonModel :=
  models.foldl (fun acc m => if "image" ∈ getModalities m then acc ++ [m] else acc) []

/-- Four-digit zero-padded rendering of `m % 10000`, the fractional part a
`:.4f` format produces. -/
def pad4 (m : ℕ) : String :=
  String.mk [Nat.digitChar (m / 1000 % 10), Nat.digitChar (m / 100 % 10),
             Nat.digitChar (m / 10 % 10), Nat.digitChar (m % 10)]

/-- Round-to-nearest on rationals (floor of q + 1/2).  Python's `:.4f`
rounds the binary double to nearest; the decimal prices the program formats
never sit on a tie, so the tie-breaking rule is immaterial here. -/
def roundQ (q : ℚ) : ℤ :=
  ⌊q + 1 / 2⌋

/-- Embedding of the `f-string` format `:.4f`: the value rounded to four
decimal places, rendered with a sign, the integer digits, a dot, and
exactly four fractional digits. -/
def format4 (q : ℚ) : String :=
  (if roundQ (q * 10000) < 0 then "-" else "")
    ++ toString ((roundQ (q * 10000)).natAbs / 10000)
    ++ "." ++ pad4 ((roundQ (q * 10000)).natAbs % 10000)

/-- Decimal value of a digit character list, most significant first. -/
def digitsVal (cs : List Char) : ℕ :=
  cs.foldl (fun n c => n * 10 + (c.toNat - 48)) 0

/-- Tests that every character of the list is an ASCII digit. -/
def allCharsDigits (cs : List Char) : Bool :=
  cs.all Char.isDigit

/-- Parses a plain decimal literal (optional sign, digits, optional dot) to
a rational; the restriction of Python's `float()` to the decimal notation
the catalog's price strings use.  `none` models a `ValueError`. -/
def parseDecimal (s : String) : Option ℚ :=
  let (neg, body) := match s.data with
    | '-' :: rest => (true, rest)
    | '+' :: rest => (false, rest)
    | cs => (false, cs)
  let value : Option ℚ := match splitOnChar '.' body with
    | [ip] =>
      if ip ≠ [] ∧ allCharsDigits ip then some ((digitsVal ip : ℤ) : ℚ) else none
    | [ip, fp] =>
      if (ip ≠ [] ∨ fp ≠ []) ∧ allCharsDigits ip ∧ allCharsDigits fp then
        some ((digitsVal ip : ℚ) + (digitsVal fp : ℚ) / 10 ^ fp.length)
      else none
    | _ => none
  match value with
  | some v => some (if neg then -v else v)
  | none => none

/-- The separator line `"-" * 70` of the detailed listing. -/
def dashLine : String := String.mk (List.replicate 70 '-')

/-- Embedding of the per-model block of the detailed listing (glimpse.py
lines 212-242), as the list of printed lines: id, name and context length
default to the placeholder "Unknown"; a missing pricing object or key
defaults to the string "0"; both costs become "N/A" when either price fails
to parse (the two conversions share one `try`); an empty or missing
description prints no line at all, and one longer than 100 characters is
truncated to 97 characters plus "...". -/
def renderModelDetailed (m : JsonModel) : List String :=
  let model_id := m.id.getD "Unknown"
  let name := m.name.getD "Unknown"
  let context_length := match m.context_length with
    | some n => toString n
    | none => "Unknown"
  let pricing := m.pricing.getD { prompt := none, completion := none }
  let prompt_price := pricing.prompt.getD "0"
  let completion_price := pricing.completion.getD "0"
  let costs := match parseDecimal prompt_price, parseDecimal completion_price with
    | some p, some c =>
      ("$" ++ format4 (p * 1000) ++ "/1K", "$" ++ format4 (c * 1000) ++ "/1K")
    | _, _ => ("N/A", "N/A")
  let description := m.description.getD ""
  (["ID: " ++ model_id,
    "Name: " ++ name,
    "Context: " ++ context_length ++ " tokens",
    "Pricing: " ++ costs.1 ++ " prompt, " ++ costs.2 ++ " completion"]
   ++ (if description ≠ "" ∧ description.length ≤ 100 then
        ["Description: " ++ description]
      else if description ≠ "" then
        ["Description: " ++ (description.take 97 ++ "...")]
      else [])
   ++ [dashLine])

/-- Decidable equality for `Except`, needed to decide concrete fetch
outcomes. -/
instance exceptDecEq {ε α : Type} [DecidableEq ε] [DecidableEq α] :
    DecidableEq (Except ε α) := fun x y =>
  match x, y with
  | Except.ok a, Except.ok b =>
    if h : a = b then isTrue (by rw [h])
    else isFalse (by intro hc; cases hc; exact h rfl)
  | Except.error a, Except.error b =>
    if h : a = b then isTrue (by rw [h])
    else isFalse (by intro hc; cases hc; exact h rfl)
  | Except.ok _, Except.error _ => isFalse (by intro hc; cases hc)
  | Except.error _, Except.ok _ => isFalse (by intro hc; cases hc)

/-- The cache file and network state one `fetch_models_data` call sees:
whether the cache file exists, its age `time.time() - getmtime` in seconds,
what it parses to (`none` models a JSON/IO failure), and what the network
fetch would return. -/
structure FetchEnv where
  cacheExists : Bool
  cacheAge : ℚ
  cacheContent : Option ModelsDoc
  networkResult : Except String ModelsDoc
deriving DecidableEq

/-- Embedding of `is_cache_valid` (glimpse.py lines 129-136): the file
exists and its age is strictly below `max_age_hours * 3600` seconds. -/
def is_cache_valid (env : FetchEnv) (max_age_hours : ℚ) : Bool :=
  if env.cacheExists = false then false
  else decide (env.cacheAge < max_age_hours * 3600)

/-- Embedding of `load_models_from_cache` (glimpse.py lines 139-145): a
missing file raises IOError, so the read yields `none`; otherwise the parse
result. -/
def load_models_from_cache (env : FetchEnv) : Option ModelsDoc :=
  if env.cacheExists then env.cacheContent else none

/-- Result of a `fetch_models_data` call, together with whether the network
was contacted at all and whether the stale-cache warning was printed. -/
structure FetchOutcome where
  result : Except String ModelsDoc
  networkAttempted : Bool
  staleWarning : Bool
deriving DecidableEq

/-- The network branch of `fetch_models_data` (glimpse.py lines 169-187):
on success the data is cached (a write failure is swallowed) and returned;
on failure the cache is read regardless of age, a parse success is returned
with a warning, and otherwise the network error is re-raised. -/
def fetchFromNetwork (env : FetchEnv) : FetchOutcome :=
  match env.networkResult with
  | Except.ok models_data =>
    { result := Except.ok models_data, networkAttempted := true, staleWarning := false }
  | Except.error e =>
    match load_models_from_cache env with
    | some cached_data =>
      { result := Except.ok cached_data, networkAttempted := true, staleWarning := true }
    | none =>
      { result := Except.error e, networkAttempted := true, staleWarning := false }

/-- Embedding of `fetch_models_data` (glimpse.py lines 158-187): a valid
(fresh) cache that parses is returned with no network activity; otherwise
the network branch runs. -/
def fetch_models_data (env : FetchEnv) : FetchOutcome :=
  if is_cache_valid env 6 then
    match load_models_from_cache env with
    | some cached_data =>
      { result := Except.ok cached_data, networkAttempted := false, staleWarning := false }
    | none => fetchFromNetwork env
  else fetchFromNetwork env

/-- An analyze invocation that supplies no temperature on the command line. -/
def c1Args : Args :=
  { image_path := some "photo.png", prompt := "What is this?", model := none,
    temperature := none }

/-- An environment whose config file supplies api_key and model but no
temperature. -/
def c1Env : Env :=
  { configExists := true, imageExists := true,
    cfg := { api_key := some "X", model := some "M", temperature := none },
    imageB64 := "B" }

/-- A stale (over six hours old) but parseable cache next to a failing
network. -/
def c2StaleEnv : FetchEnv :=
  { cacheExists := true, cacheAge := 100000,
    cacheContent := some (ModelsDoc.bare []), networkResult := Except.error "boom" }

/-- No cache file at all next to a failing network. -/
def c2NoCacheEnv : FetchEnv :=
  { cacheExists := false, cacheAge := 100000,
    cacheContent := none, networkResult := Except.error "boom" }

/-- A fresh, parseable cache; the network would fail, which must not
matter because it is never contacted. -/
def c3FreshEnv : FetchEnv :=
  { cacheExists := true, cacheAge := 100,
    cacheContent := some (ModelsDoc.withData []), networkResult := Except.error "net down" }

/-- A cache aged exactly six hours (the stale boundary) with a working
network. -/
def c3BoundaryEnv : FetchEnv :=
  { cacheExists := true, cacheAge := 21600,
    cacheContent := some (ModelsDoc.bare []), networkResult := Except.ok (ModelsDoc.bare []) }

/-- No cache file, working network. -/
def c3MissingEnv : FetchEnv :=
  { cacheExists := false, cacheAge := 0,
    cacheContent := none, networkResult := Except.ok (ModelsDoc.bare []) }

/-- A catalog entry with every optional field absent. -/
def emptyModel : JsonModel :=
  { id := none, name := none, context_length := none, architecture := none,
    pricing := none, description := none }

/-- A catalog entry whose per-unit prices are both the string 0.000001. -/
def c9Model : JsonModel :=
  { id := some "m", name := some "M", context_length := some 1000, architecture := none,
    pricing := some { prompt := some "0.000001", completion := some "0.000001" },
    description := none }

/-- An analyze invocation on a jpg image. -/
def c7Args : Args :=
  { image_path := some "photo.jpg", prompt := "p", model := none, temperature := none }

/-- An environment whose config file exists but lacks the api_key key. -/
def c7Env : Env :=
  { configExists := true, imageExists := true,
    cfg := { api_key := none, model := none, temperature := none }, imageB64 := "B" }

/-- An analyze invocation on a gif image. -/
def c8Args : Args :=
  { image_path := some "image.gif", prompt := "p", model := none, temperature := none }

/-- A fully healthy environment: config and image exist, credential
present. -/
def c8Env : Env :=
  { configExists := true, imageExists := true,
    cfg := { api_key := some "K", model := some "M", temperature := some (some (1 / 2)) },
    imageB64 := "B" }

/-- Helper: the rounding step computed from a floor characterisation. -/
lemma roundQ_eq (x : ℚ) (n : ℤ) (h1 : (n : ℚ) ≤ x + 1 / 2) (h2 : x + 1 / 2 < n + 1) :
    roundQ x = n := by
  rw [roundQ, Int.floor_eq_iff.mpr ⟨h1, by exact_mod_cast h2⟩]

/-- Helper: `format4` once the rounding step is known. -/
lemma format4_of_roundQ (q : ℚ) (n : ℤ) (h : roundQ (q * 10000) = n) :
    format4 q = (if n < 0 then "-" else "")
      ++ toString (n.natAbs / 10000) ++ "." ++ pad4 (n.natAbs % 10000) := by
  rw [format4, h]

/-- Helper: the default price string parses to zero. -/
lemma parseDecimal_zero : parseDecimal "0" = some ((((0 : ℕ) : ℤ)) : ℚ) := by
  simp [parseDecimal, splitOnChar, digitsVal, allCharsDigits]

/-- Helper: a zero per-unit price renders with four zero decimals. -/
lemma format4_zero : format4 ((((0 : ℕ) : ℤ) : ℚ) * 1000) = "0.0000" := by
  rw [format4_of_roundQ _ 0 (roundQ_eq _ _ (by norm_num) (by norm_num))]
  decide

/-- Helper: the price string 0.000001 parses to one millionth. -/
lemma parseDecimal_micro : parseDecimal "0.000001" = some (1 / 1000000) := by
  simp [parseDecimal, splitOnChar, digitsVal, allCharsDigits]
  norm_num

/-- Helper: one millionth, scaled to a per-1K price, renders as 0.0010. -/
lemma format4_micro : format4 ((1 / 1000000 : ℚ) * 1000) = "0.0010" := by
  rw [format4_of_roundQ _ 10 (roundQ_eq _ _ (by norm_num) (by norm_num))]
  decide

/-- Helper: the append-accumulate fold underlying the filtering loop is a
`List.filter`. -/
lemma foldl_append_filter {α : Type} (p : α → Prop) [DecidablePred p] :
    ∀ (l acc : List α),
      l.foldl (fun acc x => if p x then acc ++ [x] else acc) acc
        = acc ++ l.filter (fun x => decide (p x)) := by
  intro l
  induction l with
  | nil => intro acc; simp
  | cons x xs ih =>
    intro acc
    by_cases hx : p x <;> simp [List.filter_cons, hx, ih]

/-- C1 counterexample: with no CLI temperature and no config temperature,
the analyze request still carries a temperature field (the built-in
default), contradicting the claim that it is omitted. -/
theorem c1_unsupplied_temperature_still_sent :
    c1Args.temperature = none ∧ c1Env.cfg.temperature = none ∧
      mainAnalyze c1Args c1Env
        = Except.ok (analyze_payload "What is this?" "B" "M" (some defaultTemperature)) ∧
      (analyze_payload "What is this?" "B" "M" (some defaultTemperature)).temperature ≠ none := by
  refine ⟨rfl, rfl, rfl, ?_⟩
  simp [analyze_payload]

/-- C1 amended: `analyze_image` attaches the temperature field exactly when
its argument is present, but the analyze flow of `main` always passes one:
when neither the CLI nor the config supplies a temperature the built-in
default 0.4 is attached, so the outbound body always carries the field. -/
theorem c1_temperature_attachment_amended :
    (∀ prompt b64 model t, (analyze_payload prompt b64 model t).temperature = t) ∧
    (∀ args env p, args.temperature = none → env.cfg.temperature = none →
      mainAnalyze args env = Except.ok p → p.temperature = some defaultTemperature) := by
  constructor
  · intro prompt b64 model t
    simp [analyze_payload]
  · intro args env p ht hcfg hok
    cases him : args.image_path with
    | none => simp [mainAnalyze, him] at hok
    | some ip =>
      simp only [mainAnalyze, him] at hok
      split_ifs at hok
      · cases hk : env.cfg.api_key with
        | none => simp [load_config, hk] at hok
        | some k =>
          simp [load_config, hk, hcfg, resolveTemperature, ht] at hok
          subst hok
          simp [analyze_payload]

/-- C1 witness for the amended theorem at a concrete invocation. -/
theorem c1_temperature_attachment_amended_witness :
    (analyze_payload "What is this?" "B" "M" (some defaultTemperature)).temperature
      = some defaultTemperature :=
  c1_temperature_attachment_amended.2 c1Args c1Env _ rfl rfl rfl

/-- C4 counterexample: a CLI-supplied model that happens to be the empty
string does not override the config-file model, against the claim that any
CLI-supplied value overrides. -/
theorem c4_empty_cli_model_does_not_override :
    resolveModel (some "") "config-model" = "config-model" ∧ "config-model" ≠ "" := by
  exact ⟨rfl, by decide⟩

/-- C4 amended: a non-empty CLI model overrides the config model (the empty
string does not), a CLI temperature always overrides, and config-file
values override the built-in defaults. -/
theorem c4_precedence_chain_amended :
    (∀ m cm, m ≠ "" → resolveModel (some m) cm = m) ∧
    (∀ cm, resolveModel none cm = cm) ∧
    (∀ cm, resolveModel (some "") cm = cm) ∧
    (∀ t ct, resolveTemperature (some t) ct = t) ∧
    (∀ ct, resolveTemperature none ct = ct) ∧
    (∀ k m t, load_config { api_key := some k, model := some m, temperature := some (some t) }
      = Except.ok (k, m, t)) ∧
    (∀ k, load_config { api_key := some k, model := none, temperature := none }
      = Except.ok (k, defaultModel, defaultTemperature)) := by
  refine ⟨?_, ?_, ?_, ?_, ?_, ?_, ?_⟩ <;>
    intros <;> simp_all [resolveModel, resolveTemperature, load_config]

/-- C4 witness: the amended precedence applied at concrete values. -/
theorem c4_precedence_chain_amended_witness :
    resolveModel (some "cli-model") "cfg-model" = "cli-model" :=
  c4_precedence_chain_amended.1 "cli-model" "cfg-model" (by decide)

/-- C10: the empty CLI model string falls back to the config model, while a
CLI temperature overrides whenever supplied at all, including 0.0. -/
theorem c10_cli_override_asymmetry :
    (∀ cm, resolveModel (some "") cm = cm) ∧
    (∀ t ct, resolveTemperature (some t) ct = t) ∧
    (∀ ct, resolveTemperature (some 0) ct = 0) := by
  refine ⟨?_, ?_, ?_⟩ <;> intros <;> simp [resolveModel, resolveTemperature]

/-- C2: whenever the network fetch fails, a parseable cache file of any age
is returned instead (with the stale warning when the cache was stale), and
the failure propagates exactly when the cache read yields nothing. -/
theorem c2_stale_cache_fallback :
    ∀ (env : FetchEnv) (e : String), env.networkResult = Except.error e →
      (∀ d, load_models_from_cache env = some d →
        (fetch_models_data env).result = Except.ok d) ∧
      (load_models_from_cache env = none →
        fetch_models_data env
          = { result := Except.error e, networkAttempted := true, staleWarning := false }) ∧
      (∀ d, (21600 : ℚ) ≤ env.cacheAge → load_models_from_cache env = some d →
        fetch_models_data env
          = { result := Except.ok d, networkAttempted := true, staleWarning := true }) := by
  intro env e hnet
  have hfetch : ∀ d, load_models_from_cache env = some d →
      fetchFromNetwork env
        = { result := Except.ok d, networkAttempted := true, staleWarning := true } := by
    intro d hd
    simp [fetchFromNetwork, hnet, hd]
  have hfetchNone : load_models_from_cache env = none →
      fetchFromNetwork env
        = { result := Except.error e, networkAttempted := true, staleWarning := false } := by
    intro hd
    simp [fetchFromNetwork, hnet, hd]
  refine ⟨?_, ?_, ?_⟩
  · intro d hd
    by_cases hv : is_cache_valid env 6 = true <;>
      simp [fetch_models_data, hv, hd, hfetch d hd]
  · intro hd
    by_cases hv : is_cache_valid env 6 = true <;>
      simp [fetch_models_data, hv, hd, hfetchNone hd]
  · intro d hage hd
    have hv : is_cache_valid env 6 = false := by
      have h6 : (6 : ℚ) * 3600 = 21600 := by norm_num
      simp [is_cache_valid, h6, not_lt.mpr hage]
    simp [fetch_models_data, hv, hfetch d hd]

/-- C2 witness: the stale fallback and the propagation case at concrete
cache states. -/
theorem c2_stale_cache_fallback_witness :
    (fetch_models_data c2StaleEnv).result = Except.ok (ModelsDoc.bare []) ∧
    fetch_models_data c2StaleEnv
      = { result := Except.ok (ModelsDoc.bare []), networkAttempted := true,
          staleWarning := true } ∧
    fetch_models_data c2NoCacheEnv
      = { result := Except.error "boom", networkAttempted := true,
          staleWarning := false } :=
  ⟨(c2_stale_cache_fallback c2StaleEnv "boom" rfl).1 _ rfl,
   (c2_stale_cache_fallback c2StaleEnv "boom" rfl).2.2 _ (by decide) rfl,
   (c2_stale_cache_fallback c2NoCacheEnv "boom" rfl).2.1 rfl⟩

/-- C3: a cache file strictly younger than six hours that parses is served
with no network activity, while a cache aged six hours or more, or absent,
always leads to a network attempt. -/
theorem c3_cache_freshness :
    (∀ (env : FetchEnv) d, env.cacheExists = true → env.cacheAge < 21600 →
      load_models_from_cache env = some d →
      fetch_models_data env
        = { result := Except.ok d, networkAttempted := false, staleWarning := false }) ∧
    (∀ env : FetchEnv, (21600 : ℚ) ≤ env.cacheAge →
      (fetch_models_data env).networkAttempted = true) ∧
    (∀ env : FetchEnv, env.cacheExists = false →
      (fetch_models_data env).networkAttempted = true) := by
  have h6 : (6 : ℚ) * 3600 = 21600 := by norm_num
  have hnetAttempt : ∀ env : FetchEnv, (fetchFromNetwork env).networkAttempted = true := by
    intro env
    cases hres : env.networkResult with
    | ok d => simp [fetchFromNetwork, hres]
    | error e =>
      cases hd : load_models_from_cache env <;> simp [fetchFromNetwork, hres, hd]
  refine ⟨?_, ?_, ?_⟩
  · intro env d hex hage hd
    have hv : is_cache_valid env 6 = true := by
      simp [is_cache_valid, hex, h6, hage]
    simp [fetch_models_data, hv, hd]
  · intro env hage
    have hv : is_cache_valid env 6 = false := by
      simp [is_cache_valid, h6, not_lt.mpr hage]
    simp [fetch_models_data, hv, hnetAttempt env]
  · intro env hex
    have hv : is_cache_valid env 6 = false := by
      simp [is_cache_valid, hex]
    simp [fetch_models_data, hv, hnetAttempt env]

/-- C3 witness: freshness and staleness at concrete ages (100 seconds,
exactly 21600 seconds, and a missing file). -/
theorem c3_cache_freshness_witness :
    fetch_models_data c3FreshEnv
      = { result := Except.ok (ModelsDoc.withData []), networkAttempted := false,
          staleWarning := false } ∧
    (fetch_models_data c3BoundaryEnv).networkAttempted = true ∧
    (fetch_models_data c3MissingEnv).networkAttempted = true :=
  ⟨c3_cache_freshness.1 c3FreshEnv _ rfl (by decide) rfl,
   c3_cache_freshness.2.1 c3BoundaryEnv (by decide),
   c3_cache_freshness.2.2 c3MissingEnv rfl⟩

/-- C5: the image filter keeps exactly the catalog entries whose input
modalities contain the string "image", as a sublist (so in the original
relative order). -/
theorem c5_image_filter :
    ∀ models : List JsonModel,
      filterImageModels models
        = models.filter (fun m => decide ("image" ∈ getModalities m)) ∧
      (∀ m, m ∈ filterImageModels models ↔ m ∈ models ∧ "image" ∈ getModalities m) ∧
      List.Sublist (filterImageModels models) models := by
  intro models
  have hfilter : filterImageModels models
      = models.filter (fun m => decide ("image" ∈ getModalities m)) := by
    rw [filterImageModels, foldl_append_filter (fun m => "image" ∈ getModalities m)]
    simp
  refine ⟨hfilter, ?_, ?_⟩
  · intro m
    rw [hfilter]
    simp [List.mem_filter]
  · rw [hfilter]
    exact List.filter_sublist models

/-- C6 counterexample: on an entry with every optional field missing, only
id, name and context length render as the placeholder; the missing prices
render as a formatted zero cost, and no description line is emitted at all,
contradicting the claim that every missing optional field renders as
"Unknown". -/
theorem c6_missing_fields_rendering_cex :
    renderModelDetailed emptyModel
      = ["ID: Unknown", "Name: Unknown", "Context: Unknown tokens",
         "Pricing: $0.0000/1K prompt, $0.0000/1K completion", dashLine] ∧
    "Description: Unknown" ∉ renderModelDetailed emptyModel ∧
    "Pricing: Unknown prompt, Unknown completion" ∉ renderModelDetailed emptyModel := by
  have hrender : renderModelDetailed emptyModel
      = ["ID: Unknown", "Name: Unknown", "Context: Unknown tokens",
         "Pricing: $0.0000/1K prompt, $0.0000/1K completion", dashLine] := by
    simp only [renderModelDetailed, emptyModel, Option.getD_none, Option.getD_some,
      parseDecimal_zero, format4_zero]
    decide
  refine ⟨hrender, ?_, ?_⟩ <;> rw [hrender] <;> decide

/-- C6 amended: missing id, name and context length render as "Unknown";
a missing pricing object defaults both per-unit prices to the string 0,
which renders as a 0.0000 per-1K cost; a missing description is omitted
from the output entirely. -/
theorem c6_missing_fields_amended :
    ∀ m : JsonModel, m.id = none → m.name = none → m.context_length = none →
      m.pricing = none → m.description = none →
      renderModelDetailed m
        = ["ID: Unknown", "Name: Unknown", "Context: Unknown tokens",
           "Pricing: $0.0000/1K prompt, $0.0000/1K completion", dashLine] := by
  intro m hid hname hcl hpricing hdesc
  simp only [renderModelDetailed, hid, hname, hcl, hpricing, hdesc,
    Option.getD_none, Option.getD_some, parseDecimal_zero, format4_zero]
  decide

/-- C6 witness: the amended rendering at the all-missing entry. -/
theorem c6_missing_fields_amended_witness :
    renderModelDetailed emptyModel
      = ["ID: Unknown", "Name: Unknown", "Context: Unknown tokens",
         "Pricing: $0.0000/1K prompt, $0.0000/1K completion", dashLine] :=
  c6_missing_fields_amended emptyModel rfl rfl rfl rfl rfl

/-- C7: a config file without the api_key key never reaches the network
(no payload is ever produced), and when the earlier positional, config-file
and image checks pass, the run terminates with the api_key diagnostic. -/
theorem c7_missing_api_key_fails :
    ∀ (args : Args) (env : Env), env.cfg.api_key = none →
      (∀ p, mainAnalyze args env ≠ Except.ok p) ∧
      (∀ ip, args.image_path = some ip → env.configExists = true → env.imageExists = true →
        lowerString (pathSuffix ip) ∈ allowedSuffixes →
        mainAnalyze args env
          = Except.error "Error: Missing api_key in [openrouter] section of config file.") := by
  intro args env hkey
  constructor
  · intro p hok
    cases him : args.image_path with
    | none => simp [mainAnalyze, him] at hok
    | some ip =>
      simp only [mainAnalyze, him] at hok
      split_ifs at hok
      simp [load_config, hkey] at hok
  · intro ip him hcfg himg hsuffix
    simp [mainAnalyze, him, hcfg, himg, hsuffix, load_config, hkey]

/-- C7 witness: the missing-credential failure at a concrete invocation. -/
theorem c7_missing_api_key_fails_witness :
    mainAnalyze c7Args c7Env
      = Except.error "Error: Missing api_key in [openrouter] section of config file." :=
  (c7_missing_api_key_fails c7Args c7Env rfl).2 "photo.jpg" rfl rfl rfl (by decide)

/-- C8: an image path whose lowercased extension is outside the jpg, jpeg,
png allow-list never yields a payload (so no network call), and with the
config file and image present the run ends with the unsupported-format
diagnostic; the check consults only the file name. -/
theorem c8_unsupported_extension_rejected :
    ∀ (args : Args) (env : Env) (ip : String), args.image_path = some ip →
      lowerString (pathSuffix ip) ∉ allowedSuffixes →
      (∀ p, mainAnalyze args env ≠ Except.ok p) ∧
      (env.configExists = true → env.imageExists = true →
        mainAnalyze args env
          = Except.error "Error: Unsupported image format. Please use JPG or PNG.") := by
  intro args env ip him hsuffix
  constructor
  · intro p hok
    simp only [mainAnalyze, him] at hok
    split_ifs at hok
  · intro hcfg himg
    simp [mainAnalyze, him, hcfg, himg, hsuffix]

/-- C8 witness: rejection of image.gif in an otherwise healthy
environment. -/
theorem c8_unsupported_extension_rejected_witness :
    mainAnalyze c8Args c8Env
      = Except.error "Error: Unsupported image format. Please use JPG or PNG." :=
  (c8_unsupported_extension_rejected c8Args c8Env "image.gif" rfl (by decide)).2 rfl rfl

/-- C9: every formatted cost carries exactly four digits after the decimal
point, and a per-unit price string of 0.000001 renders in the detailed
listing as the per-1K cost $0.0010/1K. -/
theorem c9_price_formatting :
    (∀ q : ℚ, ∃ (intPart : String) (frac : ℕ), frac < 10000 ∧
      format4 q = intPart ++ "." ++ pad4 frac ∧ (pad4 frac).length = 4) ∧
    renderModelDetailed c9Model
      = ["ID: m", "Name: M", "Context: 1000 tokens",
         "Pricing: $0.0010/1K prompt, $0.0010/1K completion", dashLine] := by
  constructor
  · intro q
    refine ⟨(if roundQ (q * 10000) < 0 then "-" else "")
        ++ toString ((roundQ (q * 10000)).natAbs / 10000),
      (roundQ (q * 10000)).natAbs % 10000, Nat.mod_lt _ (by norm_num), ?_, rfl⟩
    rw [format4]
  · simp only [renderModelDetailed, c9Model, Option.getD_none, Option.getD_some,
      parseDecimal_micro, format4_micro]
    decide
